import Mathlib

/-!
Verification development for the captain-grok repository.

The frontend command-stream hook (src/frontend/app/hooks/useCommandStream.ts,
with the variant in src/unnamed/part_002) is embedded as a pure state
transition system: the hook's React state is the `HookState` record and each
SSE event handled by `handleSSEEvent` is a pure transition.  The status API
client (src/frontend/lib/api-client.ts, `getDroneStatus`) is embedded as a
function on a parsed HTTP response.  The backend execution engine and flight
state machine exist in the repository only as documentation, so the parts of
them that the claims need are modelled from the spec and marked as such.
-/

/-- JSON-object arguments (`Record<string, unknown>` in the source).  The hook
never inspects argument values, only carries them, so values are modelled as
strings. -/
abbrev Args := List (String × String)

/-- A tool call planned by the model (src/frontend/app/types/index.ts). -/
structure ToolCall where
  name : String
  arguments : Args
deriving DecidableEq, Repr

/-- Status of a tool during execution (src/frontend/app/types/index.ts). -/
inductive ToolStatus
  | pending
  | executing
  | success
  | error
deriving DecidableEq, Repr

/-- Live execution state for a single tool
(src/frontend/app/types/index.ts, `ToolExecution`). -/
structure ToolExecution where
  index : Nat
  total : Nat
  tool : String
  arguments : Args
  status : ToolStatus
  message : Option String
  data : Option Args
deriving DecidableEq, Repr

/-- Found target information from search operations
(src/frontend/app/types/index.ts). -/
structure FoundTarget where
  target : String
  imageUrl : Option String
  description : String
  confidence : String
  angle : Option Int
deriving DecidableEq, Repr

/-- Terminal status of a command execution:
`'processing' | 'complete' | 'error'` in the source. -/
inductive CommandStatus
  | processing
  | complete
  | error
deriving DecidableEq, Repr

/-- Complete state for one command execution
(src/frontend/app/types/index.ts, `CommandExecution`). -/
structure CommandExecution where
  id : String
  timestamp : Nat
  command : String
  aiResponse : Option String
  toolCalls : List ToolCall
  toolExecutions : List ToolExecution
  foundTarget : Option FoundTarget
  status : CommandStatus
  error : Option String
deriving DecidableEq, Repr

/-- The `status` field of an SSE `done` payload:
`'success' | 'error'` in the source. -/
inductive DoneStatus
  | success
  | error
deriving DecidableEq, Repr

/-- The SSE events handled by the hook, with the payload fields the handler
reads (src/frontend/app/types/index.ts, SSE payload interfaces). -/
inductive SSEEvent
  | command_received (command : String)
  | ai_response (response : String) (tool_calls : List ToolCall)
  | tool_start (index : Nat) (total : Nat) (tool : String) (arguments : Args)
  | tool_complete (index : Nat) (tool : String) (success : Bool)
      (message : String) (data : Option Args)
  | found (payload : FoundTarget)
  | error (message : String)
  | done (status : DoneStatus) (err : Option String)
deriving DecidableEq, Repr

/-- The React state of `useCommandStream`
(src/frontend/app/hooks/useCommandStream.ts lines 67-74): the five `useState`
cells plus the `executionRef` ref. -/
structure HookState where
  history : List CommandExecution
  currentExecution : Option CommandExecution
  foundTarget : Option FoundTarget
  showFoundModal : Bool
  isExecuting : Bool
  executionRef : Option CommandExecution
deriving DecidableEq, Repr

/-- The pending tool-execution list built in the `ai_response` case
(useCommandStream.ts lines 195-201):
`payload.tool_calls.map((tc, i) => ({ index: i + 1, total: ..., tool: tc.name,
arguments: tc.arguments, status: 'pending' }))`. -/
def initToolExecutions (tool_calls : List ToolCall) : List ToolExecution :=
  tool_calls.enum.map (fun p =>
    { index := p.1 + 1
      total := tool_calls.length
      tool := p.2.name
      arguments := p.2.arguments
      status := ToolStatus.pending
      message := none
      data := none })

/-- `handleSSEEvent` (useCommandStream.ts lines 180-303) as a pure transition
on the hook state.  The guard `if (!executionRef.current) return;` is the
outer match; each switch case updates `executionRef` and mirrors it into
`currentExecution` exactly as the source does. -/
def handleSSEEvent (s : HookState) (eventType : SSEEvent) : HookState :=
  match s.executionRef with
  | none => s
  | some exec =>
    match eventType with
    | SSEEvent.command_received _ => s
    | SSEEvent.ai_response response tool_calls =>
      let exec' := { exec with
        aiResponse := some response
        toolCalls := tool_calls
        toolExecutions := initToolExecutions tool_calls }
      { s with executionRef := some exec', currentExecution := some exec' }
    | SSEEvent.tool_start index _ _ _ =>
      let exec' := { exec with
        toolExecutions := exec.toolExecutions.map (fun te =>
          if te.index = index then { te with status := ToolStatus.executing }
          else te) }
      { s with executionRef := some exec', currentExecution := some exec' }
    | SSEEvent.tool_complete index _ success message data =>
      let exec' := { exec with
        toolExecutions := exec.toolExecutions.map (fun te =>
          if te.index = index then
            { te with
              status := if success then ToolStatus.success else ToolStatus.error
              message := some message
              data := data }
          else te) }
      { s with executionRef := some exec', currentExecution := some exec' }
    | SSEEvent.found payload =>
      let exec' := { exec with foundTarget := some payload }
      { s with
        executionRef := some exec'
        currentExecution := some exec'
        foundTarget := some payload
        showFoundModal := true }
    | SSEEvent.error message =>
      let exec' := { exec with error := some message }
      { s with executionRef := some exec', currentExecution := some exec' }
    | SSEEvent.done status err =>
      let completedExecution := { exec with
        status :=
          if status = DoneStatus.success then CommandStatus.complete
          else CommandStatus.error
        error := err }
      { s with
        history := completedExecution :: s.history
        currentExecution := none
        executionRef := none }

/-- The synchronous prefix of `executeCommand`
(useCommandStream.ts lines 86-103): the `if (isExecuting) return;` guard, then
creation of a fresh `CommandExecution` (status `processing`, empty tool lists)
stored in the ref and the current-execution cell. -/
def executeCommand_start (s : HookState) (id : String) (timestamp : Nat)
    (text : String) : HookState :=
  if s.isExecuting then s
  else
    let execution : CommandExecution := {
      id := id
      timestamp := timestamp
      command := text
      aiResponse := none
      toolCalls := []
      toolExecutions := []
      foundTarget := none
      status := CommandStatus.processing
      error := none }
    { s with
      isExecuting := true
      executionRef := some execution
      currentExecution := some execution }

/-- The `catch` block of `executeCommand` (useCommandStream.ts lines 157-177)
followed by the `finally` block: on a stream-request failure the current
execution is marked `error`, prepended to history, and the current-execution
slot and ref are cleared; `finally` resets `isExecuting`. -/
def executeCommand_catch (s : HookState) (errorMessage : String) : HookState :=
  let s' :=
    match s.executionRef with
    | none => s
    | some exec =>
      let errorExecution := { exec with
        status := CommandStatus.error
        error := some errorMessage }
      { s with
        history := errorExecution :: s.history
        currentExecution := none
        executionRef := none }
  { s' with isExecuting := false }

/-- Modelled from the spec: the backend Command Execution Engine's terminal
status computation (spec section 4.4 step 4: "compute overall status:
`success` if no record is `error`, else `error`").  The engine's source is not
in the repository; only its documentation and its frontend consumer are. -/
def engineDoneStatus (records : List ToolExecution) : DoneStatus :=
  if records.any (fun r => r.status == ToolStatus.error) then DoneStatus.error
  else DoneStatus.success

/-- Real-time drone status (src/frontend/app/types/index.ts, `DroneStatus`).
The source casts the backend string to the `DroneState` union without
checking, so `state` is modelled as a string. -/
structure DroneStatus where
  connected : Bool
  flying : Bool
  battery : Int
  height : Int
  temperature : Int
  state : String
deriving DecidableEq, Repr

/-- The `system` part of `SystemStatus` (src/frontend/app/types/index.ts). -/
structure SystemInfo where
  abortFlag : Bool
  videoRunning : Bool
  toolsCount : Nat
deriving DecidableEq, Repr

/-- System status including drone and video
(src/frontend/app/types/index.ts, `SystemStatus`). -/
structure SystemStatus where
  drone : DroneStatus
  system : SystemInfo
deriving DecidableEq, Repr

/-- The `drone` object of a parsed `/status/` response body; each field may be
absent (`data.drone?.field ?? default` in the source). -/
structure RawDroneData where
  connected : Option Bool
  flying : Option Bool
  battery : Option Int
  height : Option Int
  temperature : Option Int
  state : Option String
deriving DecidableEq, Repr

/-- The `system` object of a parsed `/status/` response body. -/
structure RawSystemData where
  abort_flag : Option Bool
  video_running : Option Bool
  tools_count : Option Nat
deriving DecidableEq, Repr

/-- A `/status/` HTTP response as `getDroneStatus` observes it: the `ok` flag
and the parsed JSON body (either top-level object may be absent). -/
structure StatusResponse where
  ok : Bool
  drone : Option RawDroneData
  system : Option RawSystemData
deriving DecidableEq, Repr

/-- The offline status literal returned for a non-ok response
(src/frontend/lib/api-client.ts lines 394-408). -/
def offlineSystemStatus : SystemStatus := {
  drone := {
    connected := false
    flying := false
    battery := 0
    height := 0
    temperature := 0
    state := "grounded" }
  system := {
    abortFlag := false
    videoRunning := false
    toolsCount := 0 } }

/-- `getDroneStatus` (src/frontend/lib/api-client.ts lines 389-428).  Fallible
API-client functions are embedded in `Except` (the neighbouring functions
throw on a non-ok response); `getDroneStatus` instead returns the offline
status when `response.ok` is false, and otherwise parses the body with
per-field defaults. -/
def getDroneStatus (response : StatusResponse) : Except String SystemStatus :=
  if !response.ok then
    Except.ok offlineSystemStatus
  else
    Except.ok {
      drone := {
        connected := (response.drone.bind RawDroneData.connected).getD false
        flying := (response.drone.bind RawDroneData.flying).getD false
        battery := (response.drone.bind RawDroneData.battery).getD 0
        height := (response.drone.bind RawDroneData.height).getD 0
        temperature := (response.drone.bind RawDroneData.temperature).getD 0
        state :=
          ((response.drone.bind RawDroneData.state).map String.toLower).getD
            "grounded" }
      system := {
        abortFlag := (response.system.bind RawSystemData.abort_flag).getD false
        videoRunning :=
          (response.system.bind RawSystemData.video_running).getD false
        toolsCount := (response.system.bind RawSystemData.tools_count).getD 0 } }

/-- Flight states of the backend state machine (spec section 3). -/
inductive FlightState
  | Grounded
  | TakingOff
  | Hovering
  | Flying
  | Landing
  | Aborted
  | Error
deriving DecidableEq, Repr

/-- Modelled from the spec: the allowed-successor table of the Flight State
Machine (spec section 4.1; the backend state-machine source is not in the
repository, only src/backend/SAFETY_GUIDE.md documents it). -/
def allowedSuccessors : FlightState → List FlightState
  | FlightState.Grounded => [FlightState.TakingOff]
  | FlightState.TakingOff => [FlightState.Hovering, FlightState.Error]
  | FlightState.Hovering =>
      [FlightState.Flying, FlightState.Landing, FlightState.Aborted,
       FlightState.Error]
  | FlightState.Flying =>
      [FlightState.Hovering, FlightState.Landing, FlightState.Aborted,
       FlightState.Error]
  | FlightState.Landing => [FlightState.Grounded, FlightState.Error]
  | FlightState.Aborted => [FlightState.Hovering, FlightState.Landing]
  | FlightState.Error => [FlightState.Grounded]

/-- Result of a transition request. -/
inductive TransitionResult
  | ok
  | invalidStateTransition
deriving DecidableEq, Repr

/-- Modelled from the spec: `request_transition(to)` of the Flight State
Machine (spec section 4.1): an atomic check-and-set that moves to `b` when
legal and otherwise fails with `InvalidStateTransition`, returning the state
the machine is in after the request. -/
def request_transition (a : FlightState) (b : FlightState) :
    TransitionResult × FlightState :=
  if b ∈ allowedSuccessors a then (TransitionResult.ok, b)
  else (TransitionResult.invalidStateTransition, a)

/-- A sample completed-shape execution used by concrete witnesses. -/
def sampleExec : CommandExecution := {
  id := "e1"
  timestamp := 0
  command := "take off"
  aiResponse := none
  toolCalls := []
  toolExecutions := []
  foundTarget := none
  status := CommandStatus.processing
  error := none }

/-- A sample hook state with a command in flight. -/
def sampleBusyState : HookState := {
  history := []
  currentExecution := some sampleExec
  foundTarget := none
  showFoundModal := false
  isExecuting := true
  executionRef := some sampleExec }

/-- A sample idle hook state (no command in flight). -/
def sampleIdleState : HookState := {
  history := []
  currentExecution := none
  foundTarget := none
  showFoundModal := false
  isExecuting := false
  executionRef := none }

/-- A sample planned tool call. -/
def sampleToolCall : ToolCall := {
  name := "takeoff"
  arguments := [] }

/-- A second sample planned tool call, with an argument. -/
def sampleToolCall2 : ToolCall := {
  name := "move"
  arguments := [("direction", "forward"), ("distance", "50")] }

/-- C1: while a command is executing (`isExecuting` is true), a call to
`executeCommand` is rejected as a no-op: no new `CommandExecution` is created
and the hook state — history, current execution, and everything else — is
unchanged. -/
theorem executeCommand_rejected_while_executing
    (s : HookState) (id : String) (timestamp : Nat) (text : String)
    (h : s.isExecuting = true) :
    executeCommand_start s id timestamp text = s := by
  unfold executeCommand_start
  simp [h]

/-- Witness for C1 at a concrete busy state. -/
theorem executeCommand_rejected_while_executing_witness :
    sampleBusyState.isExecuting = true ∧
    executeCommand_start sampleBusyState "e2" 1 "land" = sampleBusyState :=
  ⟨rfl, executeCommand_rejected_while_executing sampleBusyState "e2" 1 "land" rfl⟩

/-- C2: the terminal status computed when a command finishes is `success`
exactly when no tool-execution record has status `error`, and `error`
otherwise, for every record list. -/
theorem doneStatus_success_iff_no_error_record (records : List ToolExecution) :
    (engineDoneStatus records = DoneStatus.success ↔
      ∀ r ∈ records, r.status ≠ ToolStatus.error) ∧
    (engineDoneStatus records = DoneStatus.error ↔
      ∃ r ∈ records, r.status = ToolStatus.error) := by
  unfold engineDoneStatus
  by_cases h : records.any (fun r => r.status == ToolStatus.error) = true
  · rw [if_pos h]
    simp only [List.any_eq_true, beq_iff_eq] at h
    obtain ⟨r, hr, hstat⟩ := h
    constructor
    · constructor
      · intro hcontr; cases hcontr
      · intro hall; exact absurd hstat (hall r hr)
    · exact ⟨fun _ => ⟨r, hr, hstat⟩, fun _ => rfl⟩
  · rw [if_neg h]
    simp only [List.any_eq_true, beq_iff_eq] at h
    push_neg at h
    constructor
    · exact ⟨fun _ => h, fun _ => rfl⟩
    · constructor
      · intro hcontr; cases hcontr
      · intro ⟨r, hr, hstat⟩; exact absurd hstat (h r hr)

/-- C8: a transition request to a state outside the current state's
allowed-successor set fails with `InvalidStateTransition` and leaves the
flight state unchanged. -/
theorem illegal_transition_rejected_state_unchanged
    (a b : FlightState) (h : b ∉ allowedSuccessors a) :
    request_transition a b = (TransitionResult.invalidStateTransition, a) := by
  unfold request_transition
  simp [h]

/-- Witness for C8: Scenario B — requesting takeoff while `Hovering` fails and
the state remains `Hovering`. -/
theorem illegal_transition_rejected_state_unchanged_witness :
    FlightState.TakingOff ∉ allowedSuccessors FlightState.Hovering ∧
    request_transition FlightState.Hovering FlightState.TakingOff =
      (TransitionResult.invalidStateTransition, FlightState.Hovering) :=
  ⟨by decide,
   illegal_transition_rejected_state_unchanged FlightState.Hovering
     FlightState.TakingOff (by decide)⟩

/-- C9: when no command is in flight (the execution ref is empty), handling
any streamed event of any type is a no-op on the whole hook state. -/
theorem event_without_execution_is_noop
    (s : HookState) (ev : SSEEvent) (h : s.executionRef = none) :
    handleSSEEvent s ev = s := by
  unfold handleSSEEvent
  rw [h]

/-- Witness for C9 at a concrete idle state and a concrete event. -/
theorem event_without_execution_is_noop_witness :
    sampleIdleState.executionRef = none ∧
    handleSSEEvent sampleIdleState
      (SSEEvent.done DoneStatus.success none) = sampleIdleState :=
  ⟨rfl,
   event_without_execution_is_noop sampleIdleState
     (SSEEvent.done DoneStatus.success none) rfl⟩

/-- C10: `getDroneStatus` never throws on a failed HTTP response: for every
non-ok response it returns the fixed offline status (connected false, flying
false, battery 0, height 0, temperature 0, state grounded, abortFlag false,
videoRunning false, toolsCount 0). -/
theorem getDroneStatus_offline_on_failed_response
    (response : StatusResponse) (h : response.ok = false) :
    getDroneStatus response = Except.ok offlineSystemStatus ∧
    offlineSystemStatus = {
      drone := {
        connected := false
        flying := false
        battery := 0
        height := 0
        temperature := 0
        state := "grounded" }
      system := {
        abortFlag := false
        videoRunning := false
        toolsCount := 0 } } := by
  constructor
  · rw [getDroneStatus, h]
    rfl
  · rfl

/-- Witness for C10 at a concrete failed response. -/
theorem getDroneStatus_offline_on_failed_response_witness :
    ({ ok := false, drone := none, system := none : StatusResponse }).ok
        = false ∧
    (getDroneStatus { ok := false, drone := none, system := none } =
        Except.ok offlineSystemStatus ∧
      offlineSystemStatus = {
        drone := {
          connected := false
          flying := false
          battery := 0
          height := 0
          temperature := 0
          state := "grounded" }
        system := {
          abortFlag := false
          videoRunning := false
          toolsCount := 0 } }) :=
  ⟨rfl,
   getDroneStatus_offline_on_failed_response
     { ok := false, drone := none, system := none } rfl⟩

/-- C3: if the command-stream request itself fails (planner adapter
unavailable), the command terminates with terminal status `error`, its
tool-execution record list is still empty (no tool call was attempted), and
the failed execution is prepended to history with the in-flight slot
cleared. -/
theorem stream_failure_terminates_with_error
    (s : HookState) (id : String) (timestamp : Nat) (text : String)
    (msg : String) (h : s.isExecuting = false) :
    ∃ failed : CommandExecution,
      (executeCommand_catch (executeCommand_start s id timestamp text)
          msg).history = failed :: s.history ∧
      failed.status = CommandStatus.error ∧
      failed.toolExecutions = [] ∧
      failed.toolCalls = [] ∧
      failed.error = some msg ∧
      (executeCommand_catch (executeCommand_start s id timestamp text)
          msg).currentExecution = none ∧
      (executeCommand_catch (executeCommand_start s id timestamp text)
          msg).executionRef = none := by
  have key : executeCommand_catch (executeCommand_start s id timestamp text)
      msg =
      { s with
        history :=
          ({ id := id
             timestamp := timestamp
             command := text
             aiResponse := none
             toolCalls := []
             toolExecutions := []
             foundTarget := none
             status := CommandStatus.error
             error := some msg : CommandExecution }) :: s.history
        currentExecution := none
        isExecuting := false
        executionRef := none } := by
    unfold executeCommand_start executeCommand_catch
    rw [h]
    rfl
  exact ⟨_, by rw [key], rfl, rfl, rfl, rfl, by rw [key], by rw [key]⟩

/-- Witness for C3 at a concrete idle state. -/
theorem stream_failure_terminates_with_error_witness :
    sampleIdleState.isExecuting = false ∧
    ∃ failed : CommandExecution,
      (executeCommand_catch
          (executeCommand_start sampleIdleState "e3" 2 "take off")
          "HTTP error! status: 500").history
        = failed :: sampleIdleState.history ∧
      failed.status = CommandStatus.error ∧
      failed.toolExecutions = [] ∧
      failed.toolCalls = [] ∧
      failed.error = some "HTTP error! status: 500" ∧
      (executeCommand_catch
          (executeCommand_start sampleIdleState "e3" 2 "take off")
          "HTTP error! status: 500").currentExecution = none ∧
      (executeCommand_catch
          (executeCommand_start sampleIdleState "e3" 2 "take off")
          "HTTP error! status: 500").executionRef = none :=
  ⟨rfl,
   stream_failure_terminates_with_error sampleIdleState "e3" 2 "take off"
     "HTTP error! status: 500" rfl⟩

/-- C6: handling the `done` event prepends the completed execution, carrying
its terminal status, to history and clears the current-execution slot and the
ref. -/
theorem done_moves_execution_to_history
    (s : HookState) (exec : CommandExecution) (status : DoneStatus)
    (err : Option String) (h : s.executionRef = some exec) :
    handleSSEEvent s (SSEEvent.done status err) =
      { s with
        history := { exec with
          status :=
            if status = DoneStatus.success then CommandStatus.complete
            else CommandStatus.error
          error := err } :: s.history
        currentExecution := none
        executionRef := none } := by
  unfold handleSSEEvent
  rw [h]

/-- Witness for C6 at a concrete in-flight state. -/
theorem done_moves_execution_to_history_witness :
    sampleBusyState.executionRef = some sampleExec ∧
    handleSSEEvent sampleBusyState (SSEEvent.done DoneStatus.success none) =
      { sampleBusyState with
        history := { sampleExec with
          status :=
            if DoneStatus.success = DoneStatus.success then
              CommandStatus.complete
            else CommandStatus.error
          error := none } :: sampleBusyState.history
        currentExecution := none
        executionRef := none } :=
  ⟨rfl,
   done_moves_execution_to_history sampleBusyState sampleExec
     DoneStatus.success none rfl⟩

/-- C7: the `found` event is a side channel: it attaches the discovered
target to the current execution but leaves every tool-execution record and
the command's overall status unchanged (and moves nothing to history). -/
theorem found_event_is_side_channel
    (s : HookState) (exec : CommandExecution) (payload : FoundTarget)
    (h : s.executionRef = some exec) :
    ∃ exec',
      (handleSSEEvent s (SSEEvent.found payload)).executionRef = some exec' ∧
      exec'.foundTarget = some payload ∧
      exec'.toolExecutions = exec.toolExecutions ∧
      exec'.status = exec.status ∧
      (handleSSEEvent s (SSEEvent.found payload)).history = s.history := by
  unfold handleSSEEvent
  rw [h]
  exact ⟨{ exec with foundTarget := some payload }, rfl, rfl, rfl, rfl, rfl⟩

/-- A sample found-target payload. -/
def sampleFound : FoundTarget := {
  target := "red backpack"
  imageUrl := none
  description := "a red backpack on a chair"
  confidence := "high"
  angle := some 135 }

/-- Witness for C7 at a concrete in-flight state. -/
theorem found_event_is_side_channel_witness :
    sampleBusyState.executionRef = some sampleExec ∧
    ∃ exec',
      (handleSSEEvent sampleBusyState
          (SSEEvent.found sampleFound)).executionRef = some exec' ∧
      exec'.foundTarget = some sampleFound ∧
      exec'.toolExecutions = sampleExec.toolExecutions ∧
      exec'.status = sampleExec.status ∧
      (handleSSEEvent sampleBusyState (SSEEvent.found sampleFound)).history
        = sampleBusyState.history :=
  ⟨rfl,
   found_event_is_side_channel sampleBusyState sampleExec sampleFound rfl⟩

/-- The pending list built for a plan has one record per planned call. -/
theorem initToolExecutions_length (tool_calls : List ToolCall) :
    (initToolExecutions tool_calls).length = tool_calls.length := by
  unfold initToolExecutions
  rw [List.length_map, List.enum_length]

/-- The i-th pending record carries index i+1, the plan length as total, and
the i-th planned call's name and arguments. -/
theorem initToolExecutions_getElem (tool_calls : List ToolCall) (i : Nat)
    (tc : ToolCall) (h : tool_calls[i]? = some tc) :
    (initToolExecutions tool_calls)[i]? = some {
      index := i + 1
      total := tool_calls.length
      tool := tc.name
      arguments := tc.arguments
      status := ToolStatus.pending
      message := none
      data := none } := by
  unfold initToolExecutions
  rw [List.getElem?_map, List.getElem?_enum, h]
  rfl

/-- C4: on the `ai_response` event with n planned tool calls, exactly n
tool-execution records are created, all `pending`, the i-th carrying index
i+1, total n, and the i-th call's tool name and arguments. -/
theorem ai_response_creates_pending_records
    (s : HookState) (exec : CommandExecution) (response : String)
    (tool_calls : List ToolCall) (h : s.executionRef = some exec) :
    ∃ exec',
      (handleSSEEvent s
          (SSEEvent.ai_response response tool_calls)).executionRef
        = some exec' ∧
      exec'.toolExecutions.length = tool_calls.length ∧
      ∀ i : Nat, ∀ tc : ToolCall, tool_calls[i]? = some tc →
        exec'.toolExecutions[i]? = some {
          index := i + 1
          total := tool_calls.length
          tool := tc.name
          arguments := tc.arguments
          status := ToolStatus.pending
          message := none
          data := none } := by
  refine ⟨{ exec with
    aiResponse := some response
    toolCalls := tool_calls
    toolExecutions := initToolExecutions tool_calls }, ?_, ?_, ?_⟩
  · unfold handleSSEEvent
    rw [h]
  · exact initToolExecutions_length tool_calls
  · intro i tc hi
    exact initToolExecutions_getElem tool_calls i tc hi

/-- Witness for C4 on a concrete two-call plan. -/
theorem ai_response_creates_pending_records_witness :
    sampleBusyState.executionRef = some sampleExec ∧
    ∃ exec',
      (handleSSEEvent sampleBusyState
          (SSEEvent.ai_response "On it."
            [sampleToolCall, sampleToolCall2])).executionRef = some exec' ∧
      exec'.toolExecutions.length
        = ([sampleToolCall, sampleToolCall2] : List ToolCall).length ∧
      ∀ i : Nat, ∀ tc : ToolCall,
        ([sampleToolCall, sampleToolCall2] : List ToolCall)[i]? = some tc →
        exec'.toolExecutions[i]? = some {
          index := i + 1
          total := ([sampleToolCall, sampleToolCall2] : List ToolCall).length
          tool := tc.name
          arguments := tc.arguments
          status := ToolStatus.pending
          message := none
          data := none } :=
  ⟨rfl,
   ai_response_creates_pending_records sampleBusyState sampleExec "On it."
     [sampleToolCall, sampleToolCall2] rfl⟩

/-- C5: on a `tool_complete` event for index k, every record whose index is k
gets status `success` or `error` according to the success flag, with the
message and data attached, and every record whose index differs from k is
unchanged. -/
theorem tool_complete_updates_only_matching_record
    (s : HookState) (exec : CommandExecution) (k : Nat) (tool : String)
    (success : Bool) (message : String) (data : Option Args)
    (h : s.executionRef = some exec) :
    ∃ exec',
      (handleSSEEvent s
          (SSEEvent.tool_complete k tool success message data)).executionRef
        = some exec' ∧
      exec'.toolExecutions.length = exec.toolExecutions.length ∧
      ∀ i : Nat, ∀ te : ToolExecution,
        exec.toolExecutions[i]? = some te →
        (te.index = k →
          exec'.toolExecutions[i]? = some { te with
            status := if success then ToolStatus.success else ToolStatus.error
            message := some message
            data := data }) ∧
        (te.index ≠ k → exec'.toolExecutions[i]? = some te) := by
  refine ⟨{ exec with
    toolExecutions := exec.toolExecutions.map (fun te =>
      if te.index = k then
        { te with
          status := if success then ToolStatus.success else ToolStatus.error
          message := some message
          data := data }
      else te) }, ?_, by rw [List.length_map], ?_⟩
  · unfold handleSSEEvent
    rw [h]
  · intro i te hi
    constructor
    · intro hk
      rw [List.getElem?_map, hi]
      simp [hk]
    · intro hk
      rw [List.getElem?_map, hi]
      simp [hk]

/-- A sample pending record for the first call of a two-call plan. -/
def sampleToolExecution : ToolExecution := {
  index := 1
  total := 2
  tool := "takeoff"
  arguments := []
  status := ToolStatus.pending
  message := none
  data := none }

/-- A sample pending record for the second call of a two-call plan. -/
def sampleToolExecution2 : ToolExecution := {
  index := 2
  total := 2
  tool := "move"
  arguments := [("direction", "forward"), ("distance", "50")]
  status := ToolStatus.pending
  message := none
  data := none }

/-- A sample execution that has received a two-call plan. -/
def sampleExecPlanned : CommandExecution := { sampleExec with
  aiResponse := some "On it."
  toolCalls := [sampleToolCall, sampleToolCall2]
  toolExecutions := [sampleToolExecution, sampleToolExecution2] }

/-- A sample hook state whose in-flight execution holds a two-call plan. -/
def samplePlannedState : HookState := { sampleBusyState with
  currentExecution := some sampleExecPlanned
  executionRef := some sampleExecPlanned }

/-- Witness for C5 on a concrete two-record execution. -/
theorem tool_complete_updates_only_matching_record_witness :
    samplePlannedState.executionRef = some sampleExecPlanned ∧
    ∃ exec',
      (handleSSEEvent samplePlannedState
          (SSEEvent.tool_complete 1 "takeoff" true "Takeoff complete"
            none)).executionRef = some exec' ∧
      exec'.toolExecutions.length
        = sampleExecPlanned.toolExecutions.length ∧
      ∀ i : Nat, ∀ te : ToolExecution,
        sampleExecPlanned.toolExecutions[i]? = some te →
        (te.index = 1 →
          exec'.toolExecutions[i]? = some { te with
            status := if true then ToolStatus.success else ToolStatus.error
            message := some "Takeoff complete"
            data := none }) ∧
        (te.index ≠ 1 → exec'.toolExecutions[i]? = some te) :=
  ⟨rfl,
   tool_complete_updates_only_matching_record samplePlannedState
     sampleExecPlanned 1 "takeoff" true "Takeoff complete" none rfl⟩
